import Mathlib

/-!
Shallow embedding of the request-validation and retrain/hot-swap lifecycle of
the ML_housing repository (src/api/housing_api.py and src/api/main.py).

Numeric request fields are modelled as rationals; the pydantic v1-style
validation pipeline is embedded field by field in declaration order, with the
`values` dict of previously validated fields modelled as `Option` arguments to
the cross-field validators.  Divisions performed by the validators go through
`divSafe`, so that `none` in the result of a validation pipeline marks an
attempted division by zero; `some errs` is the collected error list, empty
when the request is accepted.
-/

namespace MLHousing

/-- One pydantic validation error: the offending field and its message. -/
structure FieldError where
  field : String
  msg : String
deriving DecidableEq, Repr

/-- The field names carried by an error list. -/
def FieldError.names (es : List FieldError) : List String := es.map FieldError.field

/-- Error recorded when a field violates its declared interval bounds. -/
def boundErr (f : String) : FieldError := ⟨f, "value out of field bounds"⟩

/-- HTTP status FastAPI attaches to the result of request validation:
422 when any error was collected, otherwise the request reaches the handler. -/
def validationStatus (es : List FieldError) : Nat := if es.isEmpty then 200 else 422

/-- Division that records an attempted division by zero instead of performing it. -/
def divSafe (a b : ℚ) : Option ℚ := if b = 0 then none else some (a / b)

/-- Structure `HousingRequest` of src/api/housing_api.py: the eight fields,
in declaration order. -/
structure HousingRequest where
  total_rooms : ℚ
  total_bedrooms : ℚ
  population : ℚ
  households : ℚ
  median_income : ℚ
  housing_median_age : ℚ
  latitude : ℚ
  longitude : ℚ
deriving DecidableEq, Repr

/-- Structure `IrisRequest` of src/api/main.py: the four fields, in declaration order. -/
structure IrisRequest where
  sepal_length : ℚ
  sepal_width : ℚ
  petal_length : ℚ
  petal_width : ℚ
deriving DecidableEq, Repr

/-- validator `validate_bedrooms_vs_rooms` on `total_bedrooms`:
errors when total_rooms is among the previously validated values and
the bedrooms value exceeds it. -/
def validate_bedrooms_vs_rooms (v : ℚ) (total_rooms? : Option ℚ) : List FieldError :=
  match total_rooms? with
  | none => []
  | some t =>
    if t < v then [⟨"total_bedrooms", "Total bedrooms cannot exceed total rooms"⟩]
    else []

/-- validator `validate_households_vs_population` on `households`:
with population among the validated values, first the part-vs-whole check,
then the average-household-size band [0.5, 20] on population / households. -/
def validate_households_vs_population (v : ℚ) (population? : Option ℚ) :
    Option (List FieldError) :=
  match population? with
  | none => some []
  | some p =>
    if p < v then
      some [⟨"households", "Number of households cannot exceed population"⟩]
    else
      match divSafe p v with
      | none => none
      | some avg =>
        if avg < (1/2 : ℚ) ∨ (20 : ℚ) < avg then
          some [⟨"households", "Average household size is unrealistic"⟩]
        else some []

/-- validator `validate_rooms_per_household` on `total_rooms`:
only acts when households is among the previously validated values. -/
def validate_rooms_per_household (v : ℚ) (households? : Option ℚ) :
    Option (List FieldError) :=
  match households? with
  | none => some []
  | some h =>
    if 0 < h then
      match divSafe v h with
      | none => none
      | some avg =>
        if avg < (1/2 : ℚ) ∨ (50 : ℚ) < avg then
          some [⟨"total_rooms", "Average rooms per household is unrealistic"⟩]
        else some []
    else some []

/-- validator `validate_petal_proportions` on `petal_width`:
part-vs-whole against petal_length, then the width/length ratio band
[0.01, 1.0]. -/
def validate_petal_proportions (v : ℚ) (petal_length? : Option ℚ) :
    Option (List FieldError) :=
  match petal_length? with
  | none => some []
  | some pl =>
    if pl < v then
      some [⟨"petal_width", "Petal width cannot be greater than petal length"⟩]
    else
      match divSafe v pl with
      | none => none
      | some ratio =>
        if ratio < (1/100 : ℚ) ∨ (1 : ℚ) < ratio then
          some [⟨"petal_width", "Petal width to length ratio is unrealistic"⟩]
        else some []

/-- validator `validate_sepal_proportions` on `sepal_width`:
part-vs-whole against sepal_length, then the width/length ratio band
[0.2, 1.0]. -/
def validate_sepal_proportions (v : ℚ) (sepal_length? : Option ℚ) :
    Option (List FieldError) :=
  match sepal_length? with
  | none => some []
  | some sl =>
    if sl < v then
      some [⟨"sepal_width", "Sepal width cannot be greater than sepal length"⟩]
    else
      match divSafe v sl with
      | none => none
      | some ratio =>
        if ratio < (1/5 : ℚ) ∨ (1 : ℚ) < ratio then
          some [⟨"sepal_width", "Sepal width to length ratio is unrealistic"⟩]
        else some []

/-- The pydantic validation pipeline of `HousingRequest`: fields validated in
declaration order; each field first checked against its interval, then its
attached validators run with the previously validated fields.  A field enters
the `values` of later validators only when its own checks all passed. -/
def validateHousingRequest (r : HousingRequest) : Option (List FieldError) :=
  -- total_rooms: gt=0, le=50000; validate_rooms_per_household sees no households yet
  let trBounds := 0 < r.total_rooms ∧ r.total_rooms ≤ 50000
  match (if trBounds then validate_rooms_per_household r.total_rooms none
         else some [boundErr "total_rooms"]) with
  | none => none
  | some eTR =>
    let roomsVal : Option ℚ :=
      if trBounds ∧ eTR.isEmpty then some r.total_rooms else none
    -- total_bedrooms: gt=0, le=10000; validate_bedrooms_vs_rooms
    let eTB :=
      if 0 < r.total_bedrooms ∧ r.total_bedrooms ≤ 10000 then
        validate_bedrooms_vs_rooms r.total_bedrooms roomsVal
      else [boundErr "total_bedrooms"]
    -- population: ge=1, le=50000
    let popBounds := 1 ≤ r.population ∧ r.population ≤ 50000
    let ePop : List FieldError := if popBounds then [] else [boundErr "population"]
    let popVal : Option ℚ := if popBounds then some r.population else none
    -- households: ge=1, le=10000; validate_households_vs_population
    match (if 1 ≤ r.households ∧ r.households ≤ 10000 then
             validate_households_vs_population r.households popVal
           else some [boundErr "households"]) with
    | none => none
    | some eHH =>
      let eMI := if 0 < r.median_income ∧ r.median_income ≤ 20 then []
                 else [boundErr "median_income"]
      let eAge := if 0 ≤ r.housing_median_age ∧ r.housing_median_age ≤ 60 then []
                  else [boundErr "housing_median_age"]
      let eLat := if 32 ≤ r.latitude ∧ r.latitude ≤ (42.5 : ℚ) then []
                  else [boundErr "latitude"]
      let eLon := if -125 ≤ r.longitude ∧ r.longitude ≤ -114 then []
                  else [boundErr "longitude"]
      some (eTR ++ eTB ++ ePop ++ eHH ++ eMI ++ eAge ++ eLat ++ eLon)

/-- The pydantic validation pipeline of `IrisRequest`: fields validated in
declaration order with their interval bounds and attached validators. -/
def validateIrisRequest (r : IrisRequest) : Option (List FieldError) :=
  -- sepal_length: ge=3.0, le=10.0
  let slBounds := 3 ≤ r.sepal_length ∧ r.sepal_length ≤ 10
  let eSL : List FieldError := if slBounds then [] else [boundErr "sepal_length"]
  let slVal : Option ℚ := if slBounds then some r.sepal_length else none
  -- sepal_width: ge=1.5, le=5.0; validate_sepal_proportions
  match (if (1.5 : ℚ) ≤ r.sepal_width ∧ r.sepal_width ≤ 5 then
           validate_sepal_proportions r.sepal_width slVal
         else some [boundErr "sepal_width"]) with
  | none => none
  | some eSW =>
    -- petal_length: ge=0.5, le=8.0
    let plBounds := (0.5 : ℚ) ≤ r.petal_length ∧ r.petal_length ≤ 8
    let ePL : List FieldError := if plBounds then [] else [boundErr "petal_length"]
    let plVal : Option ℚ := if plBounds then some r.petal_length else none
    -- petal_width: ge=0.05, le=3.0; validate_petal_proportions
    match (if (0.05 : ℚ) ≤ r.petal_width ∧ r.petal_width ≤ 3 then
             validate_petal_proportions r.petal_width plVal
           else some [boundErr "petal_width"]) with
    | none => none
    | some ePW => some (eSL ++ eSW ++ ePL ++ ePW)

/-- The request is rejected with HTTP 422 and the error detail names field `f`. -/
def RejectsNaming (res : Option (List FieldError)) (f : String) : Prop :=
  ∃ es, res = some es ∧ validationStatus es = 422 ∧ f ∈ FieldError.names es

/-!
## Prediction handlers

`predict` of src/api/housing_api.py and of src/api/main.py, embedded as
state-passing functions.  The nondeterministic collaborators of one call —
the outcome of `model.predict` and of the log-file append / SQLite insert —
are an explicit environment.  A python exception raised inside the handler
body is an `Except.error` carrying which exception it is; the `except`
clauses at the end of each handler translate it into the HTTP response.
-/

/-- A python exception escaping the handler body: an `HTTPException` raised
inside the `try` block, a pydantic `ValidationError`, or any other exception
(model failure, SQLite failure, ...). -/
inductive PyExc where
  | http (status : Nat) (kind : String)
  | pydantic (msg : String)
  | general (msg : String)
deriving DecidableEq, Repr

/-- The HTTP outcome a caller of an endpoint observes. -/
inductive HttpOutcome (α : Type) where
  | ok (value : α)
  | error (status : Nat) (kind : String)
deriving DecidableEq, Repr

/-- Response model `HousingResponse`. -/
structure HousingResponse where
  predicted_price : ℚ
  input_validation_passed : Bool
deriving DecidableEq, Repr

/-- Response model `IrisResponse`. -/
structure IrisResponse where
  predicted_class : ℤ
  class_name : String
  input_validation_passed : Bool
deriving DecidableEq, Repr

/-- Outcomes of the collaborators of one housing `predict` call:
what `model.predict` returns (or raises) on this input, and whether the
log-file append / SQLite insert / commit step succeeds. -/
structure HousingPredictEnv where
  modelPredict : Except String ℚ
  logStep : Except String Unit

/-- Outcomes of the collaborators of one iris `predict` call. -/
structure IrisPredictEnv where
  modelPredict : Except String ℤ
  logStep : Except String Unit

/-- Mutable module state of housing_api.py touched by `predict`:
the `prediction_count` global, the `housinglogs` table row count, and the
number of warnings written by `logging.warning`. -/
structure HousingState where
  prediction_count : Nat
  dbRows : Nat
  warnings : Nat
deriving DecidableEq, Repr

/-- Mutable module state of main.py touched by `predict`:
the `irislogs` table row count and the number of warnings written. -/
structure IrisState where
  dbRows : Nat
  warnings : Nat
deriving DecidableEq, Repr

/-- The `try` block of housing `predict`: increment `prediction_count`,
derive AveRooms/AveBedrms/AveOccup, run the two in-handler derived-feature
checks (raising `HTTPException(422)`), call the model, warn on an
implausible price, then log; each log insert appends one row. -/
def housingPredictBody (env : HousingPredictEnv) (d : HousingRequest)
    (st : HousingState) : Except PyExc HousingResponse × HousingState :=
  let st := { st with prediction_count := st.prediction_count + 1 }
  let aveRooms := d.total_rooms / d.households
  let aveBedrms := d.total_bedrooms / d.households
  if 50 < aveRooms then
    (.error (.http 422 "ValidationError"), st)
  else if 10 < aveBedrms then
    (.error (.http 422 "ValidationError"), st)
  else
    match env.modelPredict with
    | .error m => (.error (.general m), st)
    | .ok price =>
      let st := if price < 0 ∨ 10 < price then
                  { st with warnings := st.warnings + 1 }
                else st
      match env.logStep with
      | .error m => (.error (.general m), st)
      | .ok _ =>
        let st := { st with dbRows := st.dbRows + 1 }
        (.ok ⟨price, true⟩, st)

/-- Housing `predict` with its `except` clauses: a pydantic
`ValidationError` becomes HTTP 422, every other exception — including an
`HTTPException` raised inside the `try` block — becomes HTTP 500 with
error kind `PredictionError`. -/
def housingPredict (env : HousingPredictEnv) (d : HousingRequest)
    (st : HousingState) : HttpOutcome HousingResponse × HousingState :=
  match housingPredictBody env d st with
  | (.ok r, st') => (.ok r, st')
  | (.error (.pydantic _), st') => (.error 422 "ValidationError", st')
  | (.error _, st') => (.error 500 "PredictionError", st')

/-- The `try` block of iris `predict`: the in-handler biological check
(raising `HTTPException(422)`), the model call, the out-of-range class check
(warn, then raise `HTTPException(500)`), the class-name map, then logging. -/
def irisPredictBody (env : IrisPredictEnv) (d : IrisRequest)
    (st : IrisState) : Except PyExc IrisResponse × IrisState :=
  if d.petal_length < 1 ∧ (1/2 : ℚ) < d.petal_width then
    (.error (.http 422 "ValidationError"), st)
  else
    match env.modelPredict with
    | .error m => (.error (.general m), st)
    | .ok c =>
      if c < 0 ∨ 2 < c then
        (.error (.http 500 "PredictionError"), { st with warnings := st.warnings + 1 })
      else
        let class_name := if c = 0 then "setosa"
                          else if c = 1 then "versicolor"
                          else if c = 2 then "virginica"
                          else "unknown"
        match env.logStep with
        | .error m => (.error (.general m), st)
        | .ok _ =>
          let st := { st with dbRows := st.dbRows + 1 }
          (.ok ⟨c, class_name, true⟩, st)

/-- Iris `predict` with its `except` clauses (same translation as housing). -/
def irisPredict (env : IrisPredictEnv) (d : IrisRequest)
    (st : IrisState) : HttpOutcome IrisResponse × IrisState :=
  match irisPredictBody env d st with
  | (.ok r, st') => (.ok r, st')
  | (.error (.pydantic _), st') => (.error 422 "ValidationError", st')
  | (.error _, st') => (.error 500 "PredictionError", st')

/-- Endpoint `GET /app-metrics` of housing_api.py: returns the `prediction_count`
global as `total_predictions`. -/
def housingAppMetrics (st : HousingState) : Nat := st.prediction_count

/-- Endpoint `GET /app-metrics` of main.py: `SELECT COUNT(*) FROM irislogs`. -/
def irisAppMetrics (st : IrisState) : Nat := st.dbRows

/-- One housing `predict` call: its collaborators' outcomes and its input. -/
def HousingEvent := HousingPredictEnv × HousingRequest

/-- One iris `predict` call. -/
def IrisEvent := IrisPredictEnv × IrisRequest

/-- A sequence of housing `predict` calls applied to the module state. -/
def runHousing (evs : List HousingEvent) (st : HousingState) : HousingState :=
  evs.foldl (fun s e => (housingPredict e.1 e.2 s).2) st

/-- A sequence of iris `predict` calls applied to the module state. -/
def runIris (evs : List IrisEvent) (st : IrisState) : IrisState :=
  evs.foldl (fun s e => (irisPredict e.1 e.2 s).2) st

/-- Whether an endpoint outcome is a successful response. -/
def HttpOutcome.isOk {α : Type} : HttpOutcome α → Bool
  | .ok _ => true
  | .error _ _ => false

/-- Whether one housing `predict` call is accepted and logged (its outcome
does not depend on the module state, only on the event). -/
def housingEventOk (e : HousingEvent) : Bool :=
  (housingPredict e.1 e.2 ⟨0, 0, 0⟩).1.isOk

/-- Whether one iris `predict` call is accepted and logged. -/
def irisEventOk (e : IrisEvent) : Bool :=
  (irisPredict e.1 e.2 ⟨0, 0⟩).1.isOk

/-!
## Retrain orchestrator

`run_model_retraining` and the `/retrain` endpoint of src/api/main.py
(src/api/housing_api.py is the same code with the roles of the two model
types swapped and a synchronous call instead of a background task).
The `ModelPerformanceMonitor` and `ModelRetrainer` collaborators are an
explicit environment; the `performance.get("needs_retraining", False)`
dictionary read is `Option.getD` on the report.
-/

/-- The metrics dictionary returned by
`ModelPerformanceMonitor.evaluate_model_performance`: the entry under the
`needs_retraining` key, absent when no prior metrics exist. -/
structure PerformanceReport where
  needs_retraining : Option Bool
deriving DecidableEq, Repr

/-- Collaborator outcomes of one retraining run: the per-model-type
performance report and the result (or exception) of each
`ModelRetrainer.retrain_*_model` call. -/
structure RetrainEnv where
  perf : String → PerformanceReport
  retrainIris : Except String String
  retrainHousing : Except String String

/-- The per-model-type entry written into `results["results"]`. -/
inductive ModelOutcome where
  | skipped (reason : String)
  | done (result : String)
  | failed (error : String)
deriving DecidableEq, Repr

/-- Module state of main.py touched by retraining: the global `model`
loaded by the API (identified by its artifact), the
`retraining_status["is_running"]` flag, and
`retraining_status["last_result"]` as (per-model results, run status). -/
structure IrisApiState where
  model : String
  retraining_is_running : Bool
  last_result : Option (List (String × ModelOutcome) × String)
deriving DecidableEq, Repr

/-- Which model types one run retrains, from the request's `model_type`. -/
def models_to_retrain (model_type : Option String) : List String :=
  if model_type = some "housing" then ["housing"]
  else if model_type = some "iris" then ["iris"]
  else ["housing", "iris"]

/-- The `"iris"` arm of the per-model loop in main.py: unless forced,
skip when `performance.get("needs_retraining", False)` is falsy; otherwise
run the retrainer and, on success, reload the served model from the freshly
persisted artifact.  An exception from the retrainer is caught and recorded
with its message; the served model is then left as it was. -/
def retrainOneIris (env : RetrainEnv) (force : Bool) (fresh model : String) :
    ModelOutcome × String :=
  if force = false ∧ ((env.perf "iris").needs_retraining.getD false) = false then
    (.skipped "performance_acceptable", model)
  else
    match env.retrainIris with
    | .ok res => (.done res, fresh)
    | .error e => (.failed e, model)

/-- The `"housing"` arm of the per-model loop in main.py: same gate and
retrainer call, but the iris API never reloads a housing model. -/
def retrainOneHousing (env : RetrainEnv) (force : Bool) : ModelOutcome :=
  if force = false ∧ ((env.perf "housing").needs_retraining.getD false) = false then
    .skipped "performance_acceptable"
  else
    match env.retrainHousing with
    | .ok res => .done res
    | .error e => .failed e

/-- Function `run_model_retraining` of main.py: loop over the selected model types,
record one outcome each, set `last_result` with status `"completed"`, and
clear `is_running` in the `finally` clause.  `fresh` is the artifact
`joblib.load` would read back after a successful iris retrain. -/
def run_model_retraining (env : RetrainEnv) (model_type : Option String)
    (force : Bool) (fresh : String) (st : IrisApiState) : IrisApiState :=
  let step := fun (acc : List (String × ModelOutcome) × String) (name : String) =>
    if name = "iris" then
      let (o, m) := retrainOneIris env force fresh acc.2
      (acc.1 ++ [("iris", o)], m)
    else if name = "housing" then
      (acc.1 ++ [("housing", retrainOneHousing env force)], acc.2)
    else acc
  let res := (models_to_retrain model_type).foldl step ([], st.model)
  { model := res.2,
    retraining_is_running := false,
    last_result := some (res.1, "completed") }

/-- Body of `POST /retrain`. -/
structure RetrainRequestBody where
  model_type : Option String
  force : Bool
deriving DecidableEq, Repr

/-- What the `/retrain` endpoint returns: acceptance with the background
tasks it queued (their arguments), or an HTTP error. -/
inductive RetrainEndpointOutcome where
  | accepted (status : String) (queued : List (Option String × Bool))
  | rejected (status : Nat) (error : String)
deriving DecidableEq, Repr

/-- Endpoint `POST /retrain` of main.py: when `retraining_status["is_running"]` is
set, respond HTTP 409 with error kind `RetrainingInProgress` and queue
nothing; otherwise queue one background `run_model_retraining` task and
acknowledge with status `"started"`. -/
def retrain_model (req : RetrainRequestBody) (st : IrisApiState) :
    RetrainEndpointOutcome × IrisApiState :=
  if st.retraining_is_running then
    (.rejected 409 "RetrainingInProgress", st)
  else
    (.accepted "started" [(req.model_type, req.force)], st)

/-- All eight housing fields lie within their declared intervals. -/
def housingBoundsOK (r : HousingRequest) : Prop :=
  (0 < r.total_rooms ∧ r.total_rooms ≤ 50000) ∧
  (0 < r.total_bedrooms ∧ r.total_bedrooms ≤ 10000) ∧
  (1 ≤ r.population ∧ r.population ≤ 50000) ∧
  (1 ≤ r.households ∧ r.households ≤ 10000) ∧
  (0 < r.median_income ∧ r.median_income ≤ 20) ∧
  (0 ≤ r.housing_median_age ∧ r.housing_median_age ≤ 60) ∧
  (32 ≤ r.latitude ∧ r.latitude ≤ (42.5 : ℚ)) ∧
  (-125 ≤ r.longitude ∧ r.longitude ≤ -114)

/-- All four iris fields lie within their declared intervals. -/
def irisBoundsOK (r : IrisRequest) : Prop :=
  (3 ≤ r.sepal_length ∧ r.sepal_length ≤ 10) ∧
  ((1.5 : ℚ) ≤ r.sepal_width ∧ r.sepal_width ≤ 5) ∧
  ((0.5 : ℚ) ≤ r.petal_length ∧ r.petal_length ≤ 8) ∧
  ((0.05 : ℚ) ≤ r.petal_width ∧ r.petal_width ≤ 3)

example :
    validateHousingRequest ⟨4500, 900, 3000, 1000, (5.5 : ℚ), 26, (37.86 : ℚ), (-122.27 : ℚ)⟩ =
      some [] := by
  norm_num [validateHousingRequest, validate_rooms_per_household,
    validate_bedrooms_vs_rooms, validate_households_vs_population, divSafe]

example :
    validateIrisRequest ⟨(5.8 : ℚ), 3, (4.3 : ℚ), (1.3 : ℚ)⟩ = some [] := by
  norm_num [validateIrisRequest, validate_sepal_proportions,
    validate_petal_proportions, divSafe]

lemma rejectsNaming_of_mem {res : Option (List FieldError)} {es : List FieldError}
    {f : String} (h : res = some es) (e : FieldError) (he : e ∈ es) (hf : e.field = f) :
    RejectsNaming res f := by
  refine ⟨es, h, ?_, ?_⟩
  · cases es with
    | nil => cases he
    | cons a l => simp [validationStatus]
  · simp only [FieldError.names]
    exact hf ▸ List.mem_map_of_mem FieldError.field he

lemma validate_households_vs_population_pos (v p : ℚ) (hv : 0 < v) :
    validate_households_vs_population v (some p) =
      some (if p < v then
              [⟨"households", "Number of households cannot exceed population"⟩]
            else if p / v < (1/2 : ℚ) ∨ (20 : ℚ) < p / v then
              [⟨"households", "Average household size is unrealistic"⟩]
            else []) := by
  have hv0 : v ≠ 0 := ne_of_gt hv
  unfold validate_households_vs_population divSafe
  simp only [hv0, if_false, ite_false]
  split_ifs <;> rfl

lemma validate_petal_proportions_pos (v pl : ℚ) (hpl : 0 < pl) :
    validate_petal_proportions v (some pl) =
      some (if pl < v then
              [⟨"petal_width", "Petal width cannot be greater than petal length"⟩]
            else if v / pl < (1/100 : ℚ) ∨ (1 : ℚ) < v / pl then
              [⟨"petal_width", "Petal width to length ratio is unrealistic"⟩]
            else []) := by
  have h0 : pl ≠ 0 := ne_of_gt hpl
  unfold validate_petal_proportions divSafe
  simp only [h0, if_false, ite_false]
  split_ifs <;> rfl

lemma validate_sepal_proportions_pos (v sl : ℚ) (hsl : 0 < sl) :
    validate_sepal_proportions v (some sl) =
      some (if sl < v then
              [⟨"sepal_width", "Sepal width cannot be greater than sepal length"⟩]
            else if v / sl < (1/5 : ℚ) ∨ (1 : ℚ) < v / sl then
              [⟨"sepal_width", "Sepal width to length ratio is unrealistic"⟩]
            else []) := by
  have h0 : sl ≠ 0 := ne_of_gt hsl
  unfold validate_sepal_proportions divSafe
  simp only [h0, if_false, ite_false]
  split_ifs <;> rfl

/-- Under in-bounds fields, the housing pipeline reduces to the two
cross-field validators applied with their whole-fields available. -/
lemma validateHousing_boundsOK_eq (r : HousingRequest) (hb : housingBoundsOK r) :
    validateHousingRequest r =
      some (validate_bedrooms_vs_rooms r.total_bedrooms (some r.total_rooms) ++
        (if r.population < r.households then
            [⟨"households", "Number of households cannot exceed population"⟩]
         else if r.population / r.households < (1/2 : ℚ) ∨
             (20 : ℚ) < r.population / r.households then
            [⟨"households", "Average household size is unrealistic"⟩]
         else [])) := by
  obtain ⟨h1, h2, h3, h4, h5, h6, h7, h8⟩ := hb
  have hh0 : 0 < r.households := lt_of_lt_of_le one_pos h4.1
  unfold validateHousingRequest
  simp only [h1, h2, h3, h4, h5, h6, h7, h8, and_self, and_true, true_and, if_true,
    ite_true, validate_rooms_per_household, List.isEmpty_nil,
    validate_households_vs_population_pos _ _ hh0]
  simp

/-- Under in-bounds fields, the iris pipeline reduces to the two
cross-field validators applied with their whole-fields available. -/
lemma validateIris_boundsOK_eq (r : IrisRequest) (hb : irisBoundsOK r) :
    validateIrisRequest r =
      some ((if r.sepal_length < r.sepal_width then
               [⟨"sepal_width", "Sepal width cannot be greater than sepal length"⟩]
             else if r.sepal_width / r.sepal_length < (1/5 : ℚ) ∨
                 (1 : ℚ) < r.sepal_width / r.sepal_length then
               [⟨"sepal_width", "Sepal width to length ratio is unrealistic"⟩]
             else []) ++
            (if r.petal_length < r.petal_width then
               [⟨"petal_width", "Petal width cannot be greater than petal length"⟩]
             else if r.petal_width / r.petal_length < (1/100 : ℚ) ∨
                 (1 : ℚ) < r.petal_width / r.petal_length then
               [⟨"petal_width", "Petal width to length ratio is unrealistic"⟩]
             else [])) := by
  obtain ⟨h1, h2, h3, h4⟩ := hb
  have hsl : 0 < r.sepal_length := lt_of_lt_of_le (by norm_num) h1.1
  have hpl : 0 < r.petal_length := lt_of_lt_of_le (by norm_num) h3.1
  unfold validateIrisRequest
  simp only [h1, h2, h3, h4, and_self, and_true, true_and, if_true, ite_true,
    validate_sepal_proportions_pos _ _ hsl, validate_petal_proportions_pos _ _ hpl]
  simp

lemma validate_households_vs_population_none (v : ℚ) :
    validate_households_vs_population v none = some [] := rfl

lemma validate_sepal_proportions_none (v : ℚ) :
    validate_sepal_proportions v none = some [] := rfl

lemma validate_petal_proportions_none (v : ℚ) :
    validate_petal_proportions v none = some [] := rfl

lemma validate_households_vs_population_isSome (v : ℚ) (p? : Option ℚ)
    (hv : 0 < v) : (validate_households_vs_population v p?).isSome := by
  cases p? with
  | none => rfl
  | some p => rw [validate_households_vs_population_pos v p hv]; rfl

lemma validateHousingRequest_isSome (r : HousingRequest) :
    (validateHousingRequest r).isSome := by
  unfold validateHousingRequest
  by_cases h1 : 0 < r.total_rooms ∧ r.total_rooms ≤ 50000 <;>
  by_cases h3 : 1 ≤ r.population ∧ r.population ≤ 50000 <;>
  by_cases h4 : 1 ≤ r.households ∧ r.households ≤ 10000 <;>
    simp only [h1, h3, h4, and_self, and_true, true_and, if_true, if_false,
      ite_true, ite_false, validate_rooms_per_household, List.isEmpty_nil] <;>
    first
      | rfl
      | (rw [validate_households_vs_population_pos _ _ (lt_of_lt_of_le one_pos h4.1)];
         rfl)

lemma validateIrisRequest_isSome (s : IrisRequest) :
    (validateIrisRequest s).isSome := by
  unfold validateIrisRequest
  by_cases h1 : 3 ≤ s.sepal_length ∧ s.sepal_length ≤ 10 <;>
  by_cases h2 : (1.5 : ℚ) ≤ s.sepal_width ∧ s.sepal_width ≤ 5 <;>
  by_cases h3 : (0.5 : ℚ) ≤ s.petal_length ∧ s.petal_length ≤ 8 <;>
  by_cases h4 : (0.05 : ℚ) ≤ s.petal_width ∧ s.petal_width ≤ 3
  all_goals
    simp only [h1, h2, h3, h4, and_self, and_true, true_and, if_true, if_false,
      ite_true, ite_false, validate_sepal_proportions_none,
      validate_petal_proportions_none]
  all_goals
    try rw [validate_sepal_proportions_pos _ _ (lt_of_lt_of_le (by norm_num) h1.1)]
  all_goals
    try rw [validate_petal_proportions_pos _ _ (lt_of_lt_of_le (by norm_num) h3.1)]
  all_goals simp

/-- C6: for every housing request within its declared field bounds in which
total_bedrooms exceeds total_rooms or households exceeds population, and
every iris request within bounds in which petal_width exceeds petal_length
or sepal_width exceeds sepal_length, validation rejects the request with
HTTP 422 and the error detail names the offending part field. -/
theorem C6_part_exceeds_whole_rejected (r : HousingRequest) (s : IrisRequest) :
    (housingBoundsOK r → r.total_rooms < r.total_bedrooms →
        RejectsNaming (validateHousingRequest r) "total_bedrooms") ∧
    (housingBoundsOK r → r.population < r.households →
        RejectsNaming (validateHousingRequest r) "households") ∧
    (irisBoundsOK s → s.petal_length < s.petal_width →
        RejectsNaming (validateIrisRequest s) "petal_width") ∧
    (irisBoundsOK s → s.sepal_length < s.sepal_width →
        RejectsNaming (validateIrisRequest s) "sepal_width") := by
  refine ⟨?_, ?_, ?_, ?_⟩
  · intro hb hlt
    rw [validateHousing_boundsOK_eq r hb]
    refine rejectsNaming_of_mem rfl
      ⟨"total_bedrooms", "Total bedrooms cannot exceed total rooms"⟩ ?_ rfl
    simp [validate_bedrooms_vs_rooms, hlt]
  · intro hb hlt
    rw [validateHousing_boundsOK_eq r hb]
    refine rejectsNaming_of_mem rfl
      ⟨"households", "Number of households cannot exceed population"⟩ ?_ rfl
    simp [hlt]
  · intro hb hlt
    rw [validateIris_boundsOK_eq s hb]
    refine rejectsNaming_of_mem rfl
      ⟨"petal_width", "Petal width cannot be greater than petal length"⟩ ?_ rfl
    simp [hlt]
  · intro hb hlt
    rw [validateIris_boundsOK_eq s hb]
    refine rejectsNaming_of_mem rfl
      ⟨"sepal_width", "Sepal width cannot be greater than sepal length"⟩ ?_ rfl
    simp [hlt]

theorem C6_part_exceeds_whole_rejected_witness :
    RejectsNaming
      (validateHousingRequest ⟨100, 200, 3000, 1000, 5, 25, 35, -120⟩)
      "total_bedrooms" ∧
    RejectsNaming
      (validateHousingRequest ⟨4500, 900, 100, 200, 5, 25, 35, -120⟩)
      "households" ∧
    RejectsNaming (validateIrisRequest ⟨5, 3, 1, 2⟩) "petal_width" ∧
    RejectsNaming (validateIrisRequest ⟨3, 4, 4, 1⟩) "sepal_width" :=
  ⟨(C6_part_exceeds_whole_rejected ⟨100, 200, 3000, 1000, 5, 25, 35, -120⟩
      ⟨5, 3, 1, 2⟩).1 (by norm_num [housingBoundsOK]) (by norm_num),
   (C6_part_exceeds_whole_rejected ⟨4500, 900, 100, 200, 5, 25, 35, -120⟩
      ⟨5, 3, 1, 2⟩).2.1 (by norm_num [housingBoundsOK]) (by norm_num),
   (C6_part_exceeds_whole_rejected ⟨100, 200, 3000, 1000, 5, 25, 35, -120⟩
      ⟨5, 3, 1, 2⟩).2.2.1 (by norm_num [irisBoundsOK]) (by norm_num),
   (C6_part_exceeds_whole_rejected ⟨100, 200, 3000, 1000, 5, 25, 35, -120⟩
      ⟨3, 4, 4, 1⟩).2.2.2 (by norm_num [irisBoundsOK]) (by norm_num)⟩

/-- C7: a whole-field equal to 0 is rejected by that field's own lower-bound
check, and the cross-field ratio validators never attempt a division by
zero: both validation pipelines always return an error list, never the
division-by-zero marker `none`. -/
theorem C7_zero_whole_field_rejected_no_div_by_zero :
    (∀ r : HousingRequest, (validateHousingRequest r).isSome) ∧
    (∀ s : IrisRequest, (validateIrisRequest s).isSome) ∧
    (∀ r : HousingRequest, r.households = 0 →
        RejectsNaming (validateHousingRequest r) "households") ∧
    (∀ s : IrisRequest, s.petal_length = 0 →
        RejectsNaming (validateIrisRequest s) "petal_length") ∧
    (∀ s : IrisRequest, s.sepal_length = 0 →
        RejectsNaming (validateIrisRequest s) "sepal_length") := by
  refine ⟨validateHousingRequest_isSome, validateIrisRequest_isSome, ?_, ?_, ?_⟩
  · intro r h0
    have h4 : ¬(1 ≤ r.households ∧ r.households ≤ 10000) := by
      rw [h0]; norm_num
    unfold validateHousingRequest
    by_cases h1 : 0 < r.total_rooms ∧ r.total_rooms ≤ 50000 <;>
      simp only [h1, h4, and_self, and_true, true_and, if_true, if_false,
        ite_true, ite_false, validate_rooms_per_household, List.isEmpty_nil] <;>
      refine rejectsNaming_of_mem rfl (boundErr "households") ?_ rfl <;>
      simp [boundErr]
  · intro s h0
    have h3 : ¬((0.5 : ℚ) ≤ s.petal_length ∧ s.petal_length ≤ 8) := by
      rw [h0]; norm_num
    unfold validateIrisRequest
    by_cases h1 : 3 ≤ s.sepal_length ∧ s.sepal_length ≤ 10 <;>
    by_cases h2 : (1.5 : ℚ) ≤ s.sepal_width ∧ s.sepal_width ≤ 5 <;>
    by_cases h4 : (0.05 : ℚ) ≤ s.petal_width ∧ s.petal_width ≤ 3
    all_goals
      simp only [h1, h2, h3, h4, and_self, and_true, true_and, if_true, if_false,
        ite_true, ite_false, validate_sepal_proportions_none,
        validate_petal_proportions_none]
    all_goals
      try rw [validate_sepal_proportions_pos _ _
        (lt_of_lt_of_le (by norm_num) h1.1)]
    all_goals
      exact rejectsNaming_of_mem rfl (boundErr "petal_length")
        (by simp [boundErr]) rfl
  · intro s h0
    have h1 : ¬(3 ≤ s.sepal_length ∧ s.sepal_length ≤ 10) := by
      rw [h0]; norm_num
    unfold validateIrisRequest
    by_cases h2 : (1.5 : ℚ) ≤ s.sepal_width ∧ s.sepal_width ≤ 5 <;>
    by_cases h3 : (0.5 : ℚ) ≤ s.petal_length ∧ s.petal_length ≤ 8 <;>
    by_cases h4 : (0.05 : ℚ) ≤ s.petal_width ∧ s.petal_width ≤ 3
    all_goals
      simp only [h1, h2, h3, h4, and_self, and_true, true_and, if_true, if_false,
        ite_true, ite_false, validate_sepal_proportions_none,
        validate_petal_proportions_none]
    all_goals
      try rw [validate_petal_proportions_pos _ _
        (lt_of_lt_of_le (by norm_num) h3.1)]
    all_goals
      exact rejectsNaming_of_mem rfl (boundErr "sepal_length")
        (by simp [boundErr]) rfl

theorem C7_zero_whole_field_rejected_no_div_by_zero_witness :
    RejectsNaming (validateHousingRequest ⟨4500, 900, 3000, 0, 5, 25, 35, -120⟩)
      "households" ∧
    RejectsNaming (validateIrisRequest ⟨5, 3, 0, 1⟩) "petal_length" ∧
    RejectsNaming (validateIrisRequest ⟨0, 3, 4, 1⟩) "sepal_length" :=
  ⟨C7_zero_whole_field_rejected_no_div_by_zero.2.2.1 _ rfl,
   C7_zero_whole_field_rejected_no_div_by_zero.2.2.2.1 _ rfl,
   C7_zero_whole_field_rejected_no_div_by_zero.2.2.2.2 _ rfl⟩

/-- C10: the validate_rooms_per_household validator runs while households has
not been validated yet (total_rooms is declared first), so it returns no
error for every input; consequently a request whose rooms-per-household
ratio is below 0.5, in bounds and passing the other cross-field checks, is
accepted by validation. -/
theorem C10_rooms_per_household_validator_noop (r : HousingRequest) :
    (∀ v : ℚ, validate_rooms_per_household v none = some []) ∧
    (housingBoundsOK r → r.total_bedrooms ≤ r.total_rooms →
     r.households ≤ r.population →
     (1/2 : ℚ) ≤ r.population / r.households →
     r.population / r.households ≤ 20 →
     r.total_rooms / r.households < (1/2 : ℚ) →
     validateHousingRequest r = some []) := by
  refine ⟨fun v => rfl, ?_⟩
  intro hb htb hhp hlo hhi _
  rw [validateHousing_boundsOK_eq r hb]
  simp only [validate_bedrooms_vs_rooms, if_neg (not_lt.mpr htb),
    if_neg (not_lt.mpr hhp), List.nil_append]
  rw [if_neg]
  push_neg
  exact ⟨hlo, hhi⟩

/-- C1 counterexample: when the performance report has no needs_retraining
entry, a non-forced iris retrain run records status skipped with reason
performance_acceptable and leaves the served model unchanged — it does not
proceed to retrain, refuting the needs_retraining = true cold-start claim. -/
theorem C1_cold_start_counterexample :
    run_model_retraining
        ⟨fun _ => ⟨none⟩, .ok "retrained", .ok "retrained"⟩
        (some "iris") false "fresh-artifact" ⟨"old-artifact", false, none⟩ =
      ⟨"old-artifact", false,
       some ([("iris", .skipped "performance_acceptable")], "completed")⟩ := by
  rfl

/-- C1 amended: the cold-start default is needs_retraining = false — when the
performance report lacks the needs_retraining entry, a non-forced retrain
request for that model type is skipped with reason performance_acceptable
and the served model reference is unchanged. -/
theorem C1_cold_start_default_skips (env : RetrainEnv) (st : IrisApiState)
    (fresh : String) :
    (env.perf "iris").needs_retraining = none →
    run_model_retraining env (some "iris") false fresh st =
      ⟨st.model, false,
       some ([("iris", .skipped "performance_acceptable")], "completed")⟩ := by
  intro h
  simp [run_model_retraining, models_to_retrain, retrainOneIris, h]

theorem C1_cold_start_default_skips_witness :
    run_model_retraining ⟨fun _ => ⟨none⟩, .ok "retrained", .ok "retrained"⟩
        (some "iris") false "artifact-v2" ⟨"artifact-v1", false, none⟩ =
      ⟨"artifact-v1", false,
       some ([("iris", .skipped "performance_acceptable")], "completed")⟩ :=
  C1_cold_start_default_skips
    ⟨fun _ => ⟨none⟩, .ok "retrained", .ok "retrained"⟩
    ⟨"artifact-v1", false, none⟩ "artifact-v2" rfl

/-- C2: a /retrain request arriving while retraining_status marks a job as
running is answered HTTP 409 with error kind RetrainingInProgress, queues no
background task, and leaves the state unchanged — hence the running job
computes from that state exactly the result it would have computed anyway. -/
theorem C2_retrain_mutual_exclusion (req : RetrainRequestBody)
    (st : IrisApiState) (env : RetrainEnv) (mt : Option String) (force : Bool)
    (fresh : String) :
    st.retraining_is_running = true →
    retrain_model req st = (.rejected 409 "RetrainingInProgress", st) ∧
    run_model_retraining env mt force fresh (retrain_model req st).2 =
      run_model_retraining env mt force fresh st := by
  intro h
  constructor
  · simp [retrain_model, h]
  · simp [retrain_model, h]

theorem C2_retrain_mutual_exclusion_witness :
    retrain_model ⟨some "iris", false⟩ ⟨"artifact-v1", true, none⟩ =
      (.rejected 409 "RetrainingInProgress", ⟨"artifact-v1", true, none⟩) ∧
    run_model_retraining ⟨fun _ => ⟨some true⟩, .ok "r", .ok "r"⟩ (some "iris")
        false "artifact-v2"
        (retrain_model ⟨some "iris", false⟩ ⟨"artifact-v1", true, none⟩).2 =
      run_model_retraining ⟨fun _ => ⟨some true⟩, .ok "r", .ok "r"⟩ (some "iris")
        false "artifact-v2" ⟨"artifact-v1", true, none⟩ :=
  C2_retrain_mutual_exclusion ⟨some "iris", false⟩ ⟨"artifact-v1", true, none⟩
    ⟨fun _ => ⟨some true⟩, .ok "r", .ok "r"⟩ (some "iris") false "artifact-v2" rfl

/-- C3: when the per-model retraining step raises, the exception is caught
and recorded with its message in that model's results entry, and the model
reference served by the API stays exactly what it was before the run — both
for a single-model run and for a run over both model types. -/
theorem C3_failed_retrain_keeps_model (env : RetrainEnv) (st : IrisApiState)
    (force : Bool) (fresh msg : String) :
    env.retrainIris = .error msg →
    (force = true ∨ (env.perf "iris").needs_retraining.getD false = true) →
    (run_model_retraining env (some "iris") force fresh st).model = st.model ∧
    (run_model_retraining env (some "iris") force fresh st).last_result =
      some ([("iris", .failed msg)], "completed") ∧
    (run_model_retraining env none force fresh st).model = st.model ∧
    (run_model_retraining env none force fresh st).last_result =
      some ([("housing", retrainOneHousing env force),
             ("iris", .failed msg)], "completed") := by
  intro he hg
  have hcond : ¬(force = false ∧
      (env.perf "iris").needs_retraining.getD false = false) := by
    rcases hg with h | h <;> simp [h]
  have hstep : ∀ m, retrainOneIris env force fresh m = (.failed msg, m) := by
    intro m
    simp [retrainOneIris, hcond, he]
  refine ⟨?_, ?_, ?_, ?_⟩ <;>
    simp [run_model_retraining, models_to_retrain, hstep]

theorem C3_failed_retrain_keeps_model_witness :
    (run_model_retraining ⟨fun _ => ⟨some true⟩, .error "boom", .ok "h-ok"⟩
        (some "iris") false "fresh" ⟨"old", false, none⟩).model = "old" ∧
    (run_model_retraining ⟨fun _ => ⟨some true⟩, .error "boom", .ok "h-ok"⟩
        (some "iris") false "fresh" ⟨"old", false, none⟩).last_result =
      some ([("iris", .failed "boom")], "completed") ∧
    (run_model_retraining ⟨fun _ => ⟨some true⟩, .error "boom", .ok "h-ok"⟩
        none false "fresh" ⟨"old", false, none⟩).model = "old" ∧
    (run_model_retraining ⟨fun _ => ⟨some true⟩, .error "boom", .ok "h-ok"⟩
        none false "fresh" ⟨"old", false, none⟩).last_result =
      some ([("housing", .done "h-ok"), ("iris", .failed "boom")], "completed") :=
  C3_failed_retrain_keeps_model ⟨fun _ => ⟨some true⟩, .error "boom", .ok "h-ok"⟩
    ⟨"old", false, none⟩ false "fresh" "boom" rfl (Or.inr rfl)

/-- C9: a request that passes field and cross-field pydantic validation but
violates an in-endpoint derived-feature check makes the handler raise an
HTTPException(422) inside its try block; the generic except clause catches
it and the caller instead receives HTTP 500 with error kind PredictionError. -/
theorem C9_derived_check_yields_500 (env : HousingPredictEnv)
    (ienv : IrisPredictEnv) (d : HousingRequest) (s : IrisRequest)
    (hst : HousingState) (ist : IrisState) :
    (validateHousingRequest d = some [] → 50 < d.total_rooms / d.households →
     (housingPredictBody env d hst).1 = .error (.http 422 "ValidationError") ∧
     (housingPredict env d hst).1 = .error 500 "PredictionError") ∧
    (validateHousingRequest d = some [] → d.total_rooms / d.households ≤ 50 →
     10 < d.total_bedrooms / d.households →
     (housingPredictBody env d hst).1 = .error (.http 422 "ValidationError") ∧
     (housingPredict env d hst).1 = .error 500 "PredictionError") ∧
    (validateIrisRequest s = some [] →
     s.petal_length < 1 → (1/2 : ℚ) < s.petal_width →
     (irisPredictBody ienv s ist).1 = .error (.http 422 "ValidationError") ∧
     (irisPredict ienv s ist).1 = .error 500 "PredictionError") := by
  refine ⟨fun _ h => ?_, fun _ h50 h => ?_, fun _ h1 h2 => ?_⟩
  · exact ⟨by simp [housingPredictBody, h],
      by simp [housingPredict, housingPredictBody, h]⟩
  · exact ⟨by simp [housingPredictBody, not_lt.mpr h50, h],
      by simp [housingPredict, housingPredictBody, not_lt.mpr h50, h]⟩
  · exact ⟨by simp [irisPredictBody, h1, h2, -one_div],
      by simp [irisPredict, irisPredictBody, h1, h2, -one_div]⟩

theorem C9_derived_check_yields_500_witness :
    (housingPredict ⟨.ok 2, .ok ()⟩ ⟨50000, 200, 300, 100, 5, 25, 35, -120⟩
        ⟨0, 0, 0⟩).1 = .error 500 "PredictionError" ∧
    (housingPredict ⟨.ok 2, .ok ()⟩ ⟨4000, 3000, 300, 100, 5, 25, 35, -120⟩
        ⟨0, 0, 0⟩).1 = .error 500 "PredictionError" ∧
    (irisPredict ⟨.ok 1, .ok ()⟩ ⟨(5.8 : ℚ), 3, (0.9 : ℚ), (0.6 : ℚ)⟩
        ⟨0, 0⟩).1 = .error 500 "PredictionError" :=
  ⟨((C9_derived_check_yields_500 ⟨.ok 2, .ok ()⟩ ⟨.ok 1, .ok ()⟩
      ⟨50000, 200, 300, 100, 5, 25, 35, -120⟩ ⟨(5.8 : ℚ), 3, (0.9 : ℚ), (0.6 : ℚ)⟩
      ⟨0, 0, 0⟩ ⟨0, 0⟩).1
      (by norm_num [validateHousingRequest, validate_rooms_per_household,
        validate_bedrooms_vs_rooms, validate_households_vs_population, divSafe])
      (by norm_num)).2,
   ((C9_derived_check_yields_500 ⟨.ok 2, .ok ()⟩ ⟨.ok 1, .ok ()⟩
      ⟨4000, 3000, 300, 100, 5, 25, 35, -120⟩ ⟨(5.8 : ℚ), 3, (0.9 : ℚ), (0.6 : ℚ)⟩
      ⟨0, 0, 0⟩ ⟨0, 0⟩).2.1
      (by norm_num [validateHousingRequest, validate_rooms_per_household,
        validate_bedrooms_vs_rooms, validate_households_vs_population, divSafe])
      (by norm_num) (by norm_num)).2,
   ((C9_derived_check_yields_500 ⟨.ok 2, .ok ()⟩ ⟨.ok 1, .ok ()⟩
      ⟨50000, 200, 300, 100, 5, 25, 35, -120⟩ ⟨(5.8 : ℚ), 3, (0.9 : ℚ), (0.6 : ℚ)⟩
      ⟨0, 0, 0⟩ ⟨0, 0⟩).2.2
      (by norm_num [validateIrisRequest, validate_sepal_proportions,
        validate_petal_proportions, divSafe])
      (by norm_num) (by norm_num)).2⟩

/-- C4 counterexample: a validated housing request whose model call succeeds
but whose SQLite logging step fails is answered with HTTP 500 and error kind
PredictionError — the prediction response is not returned to the caller. -/
theorem C4_logging_failure_counterexample :
    validateHousingRequest ⟨4500, 900, 3000, 1000, 5, 25, 35, -120⟩ = some [] ∧
    (housingPredict ⟨.ok (5/2 : ℚ), .error "database is locked"⟩
       ⟨4500, 900, 3000, 1000, 5, 25, 35, -120⟩ ⟨0, 0, 0⟩).1 =
      .error 500 "PredictionError" := by
  constructor
  · norm_num [validateHousingRequest, validate_rooms_per_household,
      validate_bedrooms_vs_rooms, validate_households_vs_population, divSafe]
  · norm_num [housingPredict, housingPredictBody]

/-- C4 amended: a failure of the logging step after a successful model call
is surfaced to the prediction caller as HTTP 500 with error kind
PredictionError, in both APIs; the prediction response is not returned. -/
theorem C4_logging_failure_surfaced (env : HousingPredictEnv)
    (ienv : IrisPredictEnv) (d : HousingRequest) (s : IrisRequest)
    (hst : HousingState) (ist : IrisState) (p : ℚ) (c : ℤ) (mh mi : String) :
    (env.modelPredict = .ok p → env.logStep = .error mh →
     d.total_rooms / d.households ≤ 50 → d.total_bedrooms / d.households ≤ 10 →
     (housingPredict env d hst).1 = .error 500 "PredictionError") ∧
    (ienv.modelPredict = .ok c → ienv.logStep = .error mi →
     ¬(s.petal_length < 1 ∧ (1/2 : ℚ) < s.petal_width) → 0 ≤ c → c ≤ 2 →
     (irisPredict ienv s ist).1 = .error 500 "PredictionError") := by
  constructor
  · intro hm hl h50 h10
    simp [housingPredict, housingPredictBody, hm, hl,
      not_lt.mpr h50, not_lt.mpr h10]
  · intro hm hl hbio hc0 hc2
    simp [irisPredict, irisPredictBody, hm, hl, hbio,
      not_lt.mpr hc0, not_lt.mpr hc2, -one_div]

theorem C4_logging_failure_surfaced_witness :
    (housingPredict ⟨.ok (7/2 : ℚ), .error "database is locked"⟩
       ⟨4500, 900, 3000, 1000, 5, 25, 35, -120⟩ ⟨3, 3, 0⟩).1 =
      .error 500 "PredictionError" ∧
    (irisPredict ⟨.ok 1, .error "disk full"⟩ ⟨(5.8 : ℚ), 3, (4.3 : ℚ), (1.3 : ℚ)⟩
       ⟨0, 0⟩).1 = .error 500 "PredictionError" :=
  ⟨(C4_logging_failure_surfaced ⟨.ok (7/2 : ℚ), .error "database is locked"⟩
      ⟨.ok 1, .error "disk full"⟩ ⟨4500, 900, 3000, 1000, 5, 25, 35, -120⟩
      ⟨(5.8 : ℚ), 3, (4.3 : ℚ), (1.3 : ℚ)⟩ ⟨3, 3, 0⟩ ⟨0, 0⟩ (7/2) 1
      "database is locked" "disk full").1 rfl rfl (by norm_num) (by norm_num),
   (C4_logging_failure_surfaced ⟨.ok (7/2 : ℚ), .error "database is locked"⟩
      ⟨.ok 1, .error "disk full"⟩ ⟨4500, 900, 3000, 1000, 5, 25, 35, -120⟩
      ⟨(5.8 : ℚ), 3, (4.3 : ℚ), (1.3 : ℚ)⟩ ⟨3, 3, 0⟩ ⟨0, 0⟩ (7/2) 1
      "database is locked" "disk full").2 rfl rfl (by norm_num) (by norm_num)
      (by norm_num)⟩

/-- C5 counterexample: a validated iris request for which the model returns
the out-of-range class 3 does log a warning, but the call then fails with
HTTP 500 and error kind PredictionError instead of returning the result. -/
theorem C5_outlier_iris_counterexample :
    validateIrisRequest ⟨(5.8 : ℚ), 3, (4.3 : ℚ), (1.3 : ℚ)⟩ = some [] ∧
    irisPredict ⟨.ok 3, .ok ()⟩ ⟨(5.8 : ℚ), 3, (4.3 : ℚ), (1.3 : ℚ)⟩ ⟨0, 0⟩ =
      (.error 500 "PredictionError", ⟨0, 1⟩) := by
  constructor
  · norm_num [validateIrisRequest, validate_sepal_proportions,
      validate_petal_proportions, divSafe]
  · norm_num [irisPredict, irisPredictBody]

/-- C5 amended: on an implausible model output the housing predictor logs a
warning and still returns the prediction, while the iris predictor logs a
warning and then fails the call with HTTP 500 and error kind PredictionError. -/
theorem C5_outlier_prediction_warned (env : HousingPredictEnv)
    (ienv : IrisPredictEnv) (d : HousingRequest) (s : IrisRequest)
    (hst : HousingState) (ist : IrisState) (p : ℚ) (c : ℤ) :
    (env.modelPredict = .ok p → env.logStep = .ok () →
     d.total_rooms / d.households ≤ 50 → d.total_bedrooms / d.households ≤ 10 →
     (p < 0 ∨ 10 < p) →
     housingPredict env d hst =
       (.ok ⟨p, true⟩,
        ⟨hst.prediction_count + 1, hst.dbRows + 1, hst.warnings + 1⟩)) ∧
    (ienv.modelPredict = .ok c → (c < 0 ∨ 2 < c) →
     ¬(s.petal_length < 1 ∧ (1/2 : ℚ) < s.petal_width) →
     irisPredict ienv s ist =
       (.error 500 "PredictionError", ⟨ist.dbRows, ist.warnings + 1⟩)) := by
  constructor
  · intro hm hl h50 h10 hw
    simp [housingPredict, housingPredictBody, hm, hl,
      not_lt.mpr h50, not_lt.mpr h10, hw]
  · intro hm hc hbio
    simp [irisPredict, irisPredictBody, hm, hc, hbio, -one_div]

theorem C5_outlier_prediction_warned_witness :
    housingPredict ⟨.ok 11, .ok ()⟩ ⟨4500, 900, 3000, 1000, 5, 25, 35, -120⟩
        ⟨0, 0, 0⟩ = (.ok ⟨11, true⟩, ⟨1, 1, 1⟩) ∧
    irisPredict ⟨.ok 3, .ok ()⟩ ⟨(5.8 : ℚ), 3, (4.3 : ℚ), (1.3 : ℚ)⟩ ⟨2, 0⟩ =
      (.error 500 "PredictionError", ⟨2, 1⟩) :=
  ⟨(C5_outlier_prediction_warned ⟨.ok 11, .ok ()⟩ ⟨.ok 3, .ok ()⟩
      ⟨4500, 900, 3000, 1000, 5, 25, 35, -120⟩ ⟨(5.8 : ℚ), 3, (4.3 : ℚ), (1.3 : ℚ)⟩
      ⟨0, 0, 0⟩ ⟨2, 0⟩ 11 3).1 rfl rfl (by norm_num) (by norm_num)
      (by norm_num),
   (C5_outlier_prediction_warned ⟨.ok 11, .ok ()⟩ ⟨.ok 3, .ok ()⟩
      ⟨4500, 900, 3000, 1000, 5, 25, 35, -120⟩ ⟨(5.8 : ℚ), 3, (4.3 : ℚ), (1.3 : ℚ)⟩
      ⟨0, 0, 0⟩ ⟨2, 0⟩ 11 3).2 rfl (by norm_num) (by norm_num)⟩

lemma housingPredict_prediction_count (env : HousingPredictEnv)
    (d : HousingRequest) (st : HousingState) :
    (housingPredict env d st).2.prediction_count = st.prediction_count + 1 := by
  unfold housingPredict housingPredictBody
  by_cases h1 : 50 < d.total_rooms / d.households <;>
  by_cases h2 : 10 < d.total_bedrooms / d.households <;>
  rcases hm : env.modelPredict with m | p <;>
  rcases hl : env.logStep with m2 | u <;>
    simp [h1, h2, hm, hl] <;>
    split_ifs <;> simp_all

lemma housingPredict_dbRows (env : HousingPredictEnv) (d : HousingRequest)
    (st : HousingState) :
    (housingPredict env d st).2.dbRows =
      st.dbRows + (if housingEventOk (env, d) then 1 else 0) := by
  unfold housingEventOk housingPredict housingPredictBody
  by_cases h1 : 50 < d.total_rooms / d.households <;>
  by_cases h2 : 10 < d.total_bedrooms / d.households <;>
  rcases hm : env.modelPredict with m | p <;>
  rcases hl : env.logStep with m2 | u <;>
    simp [h1, h2, hm, hl, HttpOutcome.isOk] <;>
    split_ifs <;> simp_all

lemma irisPredict_dbRows (env : IrisPredictEnv) (s : IrisRequest)
    (st : IrisState) :
    (irisPredict env s st).2.dbRows =
      st.dbRows + (if irisEventOk (env, s) then 1 else 0) := by
  unfold irisEventOk irisPredict irisPredictBody
  by_cases h1 : s.petal_length < 1 ∧ (1/2 : ℚ) < s.petal_width <;>
  rcases hm : env.modelPredict with m | c <;>
  rcases hl : env.logStep with m2 | u <;>
    simp [h1, hm, hl, HttpOutcome.isOk, -one_div] <;>
    split_ifs <;> simp_all

lemma runHousing_prediction_count (evs : List HousingEvent) (st : HousingState) :
    (runHousing evs st).prediction_count = st.prediction_count + evs.length := by
  induction evs generalizing st with
  | nil => simp [runHousing]
  | cons e evs ih =>
    rw [show runHousing (e :: evs) st =
          runHousing evs (housingPredict e.1 e.2 st).2 from rfl,
        ih, housingPredict_prediction_count]
    simp
    omega

lemma runHousing_dbRows (evs : List HousingEvent) (st : HousingState) :
    (runHousing evs st).dbRows = st.dbRows + evs.countP housingEventOk := by
  induction evs generalizing st with
  | nil => simp [runHousing]
  | cons e evs ih =>
    rw [show runHousing (e :: evs) st =
          runHousing evs (housingPredict e.1 e.2 st).2 from rfl,
        ih, housingPredict_dbRows, List.countP_cons]
    simp only [Prod.mk.eta]
    split_ifs <;> omega

lemma runIris_dbRows (evs : List IrisEvent) (st : IrisState) :
    (runIris evs st).dbRows = st.dbRows + evs.countP irisEventOk := by
  induction evs generalizing st with
  | nil => simp [runIris]
  | cons e evs ih =>
    rw [show runIris (e :: evs) st =
          runIris evs (irisPredict e.1 e.2 st).2 from rfl,
        ih, irisPredict_dbRows, List.countP_cons]
    simp only [Prod.mk.eta]
    split_ifs <;> omega

/-- C8 counterexample: after one housing predict call whose model raises,
GET /app-metrics reports total_predictions = 1 although no prediction record
was recorded — the housing counter counts handler entries, not records. -/
theorem C8_app_metrics_counterexample :
    housingAppMetrics (runHousing [(⟨.error "model failure", .ok ()⟩,
        ⟨4500, 900, 3000, 1000, 5, 25, 35, -120⟩)] ⟨0, 0, 0⟩) = 1 ∧
    (runHousing [(⟨.error "model failure", .ok ()⟩,
        ⟨4500, 900, 3000, 1000, 5, 25, 35, -120⟩)] ⟨0, 0, 0⟩).dbRows = 0 ∧
    housingAppMetrics (runHousing [(⟨.error "model failure", .ok ()⟩,
        ⟨4500, 900, 3000, 1000, 5, 25, 35, -120⟩)] ⟨0, 0, 0⟩) ≠
      (runHousing [(⟨.error "model failure", .ok ()⟩,
        ⟨4500, 900, 3000, 1000, 5, 25, 35, -120⟩)] ⟨0, 0, 0⟩).dbRows := by
  refine ⟨?_, ?_, ?_⟩ <;>
    norm_num [runHousing, housingAppMetrics, housingPredict, housingPredictBody]

/-- C8 amended: from any state, the iris GET /app-metrics value equals the
prior row count plus one per accepted-and-logged prediction (so from a fresh
state it equals the number of records), while the housing GET /app-metrics
value counts every predict invocation that entered the handler, logged or
not; housing records still grow one per accepted-and-logged prediction. -/
theorem C8_app_metrics_counts (evs : List HousingEvent) (ievs : List IrisEvent)
    (hst : HousingState) (ist : IrisState) :
    housingAppMetrics (runHousing evs hst) = hst.prediction_count + evs.length ∧
    (runHousing evs hst).dbRows = hst.dbRows + evs.countP housingEventOk ∧
    irisAppMetrics (runIris ievs ist) = ist.dbRows + ievs.countP irisEventOk :=
  ⟨runHousing_prediction_count evs hst, runHousing_dbRows evs hst,
   runIris_dbRows ievs ist⟩

theorem C10_rooms_per_household_validator_noop_witness :
    validateHousingRequest ⟨400, 300, 3000, 1000, 5, 25, 35, -120⟩ = some [] :=
  (C10_rooms_per_household_validator_noop ⟨400, 300, 3000, 1000, 5, 25, 35, -120⟩).2
    (by norm_num [housingBoundsOK]) (by norm_num) (by norm_num) (by norm_num)
    (by norm_num) (by norm_num)

end MLHousing
